import Mathlib

/-!
Shallow embedding of the memory-mapped circular buffer of
`src/ipc/circular_buffer.cpp` / `src/include/circular_buffer.h`.

The backing file is a list of bytes (each byte a `Nat`, value < 256 in any
reachable state).  The mapped region is decoded into a `BufferState`
(header record plus the ten slots); mutations through the handle act on
that decoded state, mirroring the fact that in the source the header and
slot pointers alias the mapped file.  All 32-bit header fields are `Nat`s
reduced modulo `2 ^ 32` exactly where the C code's `uint32_t` arithmetic
wraps.  Out-parameters (`bytes_read`, the destination buffer) are modelled
as return values; `nullptr` arguments are modelled with `Option`.
-/

namespace Snake

/-- BUFFER_STAGES from circular_buffer.h: number of slots in the ring. -/
def BUFFER_STAGES : Nat := 10

/-- SLOT_SIZE from circular_buffer.h: bytes per slot. -/
def SLOT_SIZE : Nat := 1024

/-- Size in bytes of `CircularBufferHeader` (four u32 indices, one u32 magic,
44 bytes of padding). -/
def HEADER_SIZE : Nat := 64

/-- TOTAL_BUFFER_SIZE from circular_buffer.h:
`BUFFER_STAGES * SLOT_SIZE + sizeof(CircularBufferHeader)`. -/
def TOTAL_BUFFER_SIZE : Nat := BUFFER_STAGES * SLOT_SIZE + HEADER_SIZE

/-- MAGIC_NUMBER from circular_buffer.cpp: 0xBEEFCAFE. -/
def MAGIC_NUMBER : Nat := 0xBEEFCAFE

/-- Modulus of the C `uint32_t` fields. -/
def U32 : Nat := 2 ^ 32

/-- CircularBufferHeader from circular_buffer.h.  Every numeric field is a
32-bit unsigned integer in the source; here a `Nat` kept below `2 ^ 32` by
the operations. -/
structure CircularBufferHeader where
  write_index : Nat
  read_index : Nat
  total_writes : Nat
  total_reads : Nat
  magic_number : Nat
  padding : List Nat
deriving DecidableEq

/-- The mapped region: the header record followed by the slot array
(`BUFFER_STAGES` slots of `SLOT_SIZE` bytes each). -/
structure BufferState where
  header : CircularBufferHeader
  slots : List (List Nat)
deriving DecidableEq

/-- The `MemoryMappedCircularBuffer` object.  `is_init` transcribes the
`is_initialized` flag; `mapped` is `some st` once `mmap` has succeeded and
the `header` / `buffer_data` pointers are set (aliasing the backing file),
`none` when they are null.  The file descriptor and `file_size` bookkeeping
carry no information the claims touch beyond what `mapped` records. -/
structure MemoryMappedCircularBuffer where
  is_init : Bool
  mapped : Option BufferState
deriving DecidableEq

/-- The freshly constructed object: `fd = -1`, `mapped_memory = MAP_FAILED`,
null pointers, `is_initialized = false`. -/
def mkBuffer : MemoryMappedCircularBuffer := { is_init := false, mapped := none }

/-- Little-endian bytes of a 32-bit unsigned value, as stored by the
producing x86-64 host. -/
def encodeU32 (n : Nat) : List Nat :=
  [n % 256, n / 256 % 256, n / 65536 % 256, n / 16777216 % 256]

/-- Reads the 32-bit little-endian value at byte offset `off` of `bytes`
(missing bytes read as zero). -/
def decodeU32 (bytes : List Nat) (off : Nat) : Nat :=
  bytes.getD off 0 + 256 * bytes.getD (off + 1) 0 +
    65536 * bytes.getD (off + 2) 0 + 16777216 * bytes.getD (off + 3) 0

/-- Serialises a header record to its 64-byte on-disk form. -/
def encodeHeader (h : CircularBufferHeader) : List Nat :=
  encodeU32 h.write_index ++ encodeU32 h.read_index ++ encodeU32 h.total_writes ++
    encodeU32 h.total_reads ++ encodeU32 h.magic_number ++ h.padding

/-- Interprets the first 64 bytes of the mapped file as the header record. -/
def decodeHeader (bytes : List Nat) : CircularBufferHeader :=
  { write_index := decodeU32 bytes 0
    read_index := decodeU32 bytes 4
    total_writes := decodeU32 bytes 8
    total_reads := decodeU32 bytes 12
    magic_number := decodeU32 bytes 16
    padding := (bytes.drop 20).take 44 }

/-- Cuts the byte region after the header into the `BUFFER_STAGES` slots. -/
def decodeSlots (bytes : List Nat) : List (List Nat) :=
  (List.range BUFFER_STAGES).map fun i => ((bytes.drop (i * SLOT_SIZE)).take SLOT_SIZE)

/-- View of a whole mapped file as header plus slot array
(`header = mapped_memory`, `buffer_data = mapped_memory + 64`). -/
def decodeState (bytes : List Nat) : BufferState :=
  { header := decodeHeader bytes, slots := decodeSlots (bytes.drop HEADER_SIZE) }

/-- `ftruncate(fd, TOTAL_BUFFER_SIZE)` on a file of arbitrary size: shrinks to
or zero-extends to exactly `TOTAL_BUFFER_SIZE` bytes. -/
def ftruncateTotal (bytes : List Nat) : List Nat :=
  bytes.take TOTAL_BUFFER_SIZE ++ List.replicate (TOTAL_BUFFER_SIZE - bytes.length) 0

/-- The size fix-up step of `initialize`: a file smaller than
`TOTAL_BUFFER_SIZE` is zero-extended in place to the required size (this is
the `ftruncate` in the open path; it never shrinks). -/
def extendToTotal (f : List Nat) : List Nat :=
  if f.length < TOTAL_BUFFER_SIZE
  then f ++ List.replicate (TOTAL_BUFFER_SIZE - f.length) 0 else f

/-- The header written by `create_buffer_file`: `= {0}` zero-initialisation,
then zero indices/counters and the magic stamp. -/
def initHeader : CircularBufferHeader :=
  { write_index := 0, read_index := 0, total_writes := 0, total_reads := 0,
    magic_number := MAGIC_NUMBER, padding := List.replicate 44 0 }

/-- MemoryMappedCircularBuffer::create_buffer_file.  `existing` is the current
content of the file at the path (`none` when no file exists; `open` with
`O_CREAT` then creates it empty).  The I/O failure branches (open, ftruncate,
write) depend on the environment, not on the data, and are not modelled; the
data transformation of the success path is: size the file to exactly
`TOTAL_BUFFER_SIZE` bytes, then overwrite the first 64 bytes with the fresh
header.  Bytes past the header are whatever `ftruncate` left there. -/
def create_buffer_file (existing : Option (List Nat)) : Option (List Nat) :=
  let content := existing.getD []
  let sized := ftruncateTotal content
  some (encodeHeader initHeader ++ sized.drop HEADER_SIZE)

/-- MemoryMappedCircularBuffer::reset.  Note the guard: on an object whose
`is_initialized` flag is still false this is a no-op, even if the mapping
pointers are already set. -/
def reset (o : MemoryMappedCircularBuffer) : MemoryMappedCircularBuffer :=
  if !o.is_init then o
  else
    match o.mapped with
    | none => o
    | some st =>
        { o with mapped := some (BufferState.mk
          { st.header with
              write_index := 0, read_index := 0, total_writes := 0,
              total_reads := 0, magic_number := MAGIC_NUMBER }
          (List.replicate BUFFER_STAGES (List.replicate SLOT_SIZE 0))) }

/-- MemoryMappedCircularBuffer::initialize (the name `open` in the spec; the
source identifier is a reserved word here).  Takes the object and the current
content of the file at the path (`none` if absent) and returns
(return value, object afterwards, file content afterwards; the mapped state
inside the object aliases that file content).  Faithful to the source order:
the magic check calls `reset` while `is_initialized` is still false, and only
afterwards is the flag set. -/
def open_buffer (o : MemoryMappedCircularBuffer) (file : Option (List Nat)) :
    Bool × MemoryMappedCircularBuffer × Option (List Nat) :=
  if o.is_init then (false, o, file)
  else
    let file1 := match file with
      | some f => some f
      | none => create_buffer_file none
    match file1 with
    | none => (false, o, file)
    | some f =>
        let f := extendToTotal f
        let o1 := { o with mapped := some (decodeState f) }
        let o2 := if (decodeState f).header.magic_number ≠ MAGIC_NUMBER
          then reset o1 else o1
        (true, { o2 with is_init := true }, some f)

/-- memcpy of the whole of `src` over the front of `dst`. -/
def memcpyPrefix (dst src : List Nat) : List Nat :=
  src ++ dst.drop src.length

/-- MemoryMappedCircularBuffer::write_slot.  `data = none` models a null
pointer.  Returns (return value, object afterwards). -/
def write_slot (o : MemoryMappedCircularBuffer) (data : Option (List Nat)) :
    Bool × MemoryMappedCircularBuffer :=
  match data, o.mapped with
  | some d, some st =>
      if !o.is_init then (false, o)
      else if d.length > SLOT_SIZE then (false, o)
      else
        let wi := st.header.write_index
        let slot := memcpyPrefix (List.replicate SLOT_SIZE 0) d
        (true, { o with mapped := some (BufferState.mk
          { st.header with
              write_index := (wi + 1) % BUFFER_STAGES,
              total_writes := (st.header.total_writes + 1) % U32 }
          (st.slots.set wi slot)) })
  | _, _ => (false, o)

/-- MemoryMappedCircularBuffer::has_data. -/
def has_data (o : MemoryMappedCircularBuffer) : Bool :=
  if !o.is_init then false
  else
    match o.mapped with
    | some st => st.header.read_index != st.header.write_index
    | none => false

/-- MemoryMappedCircularBuffer::is_full. -/
def is_full (o : MemoryMappedCircularBuffer) : Bool :=
  if !o.is_init then false
  else
    match o.mapped with
    | some st => (st.header.write_index + 1) % BUFFER_STAGES == st.header.read_index
    | none => false

/-- Result of `read_slot` / `peek_slot`: the returned `bool`, the bytes
copied into the caller's buffer, the `*bytes_read` out-value, and the object
afterwards. -/
structure ReadResult where
  ok : Bool
  out : List Nat
  bytes_read : Nat
  post : MemoryMappedCircularBuffer
deriving DecidableEq

/-- MemoryMappedCircularBuffer::read_slot.  `out_null` models a null `data`
argument; on failure (or null out) no bytes are copied. -/
def read_slot (o : MemoryMappedCircularBuffer) (out_null : Bool) (max_size : Nat) :
    ReadResult :=
  if !o.is_init || out_null then { ok := false, out := [], bytes_read := 0, post := o }
  else if !has_data o then { ok := false, out := [], bytes_read := 0, post := o }
  else
    match o.mapped with
    | none => { ok := false, out := [], bytes_read := 0, post := o }
    | some st =>
        let ri := st.header.read_index
        let copy_size := min max_size SLOT_SIZE
        let copied := (st.slots.getD ri []).take copy_size
        { ok := true, out := copied, bytes_read := copy_size
          post := { o with mapped := some ({ st with header :=
            { st.header with
                read_index := (ri + 1) % BUFFER_STAGES,
                total_reads := (st.header.total_reads + 1) % U32 } }) } }

/-- MemoryMappedCircularBuffer::peek_slot: identical to `read_slot` except
that the header is left untouched. -/
def peek_slot (o : MemoryMappedCircularBuffer) (out_null : Bool) (max_size : Nat) :
    ReadResult :=
  if !o.is_init || out_null then { ok := false, out := [], bytes_read := 0, post := o }
  else if !has_data o then { ok := false, out := [], bytes_read := 0, post := o }
  else
    match o.mapped with
    | none => { ok := false, out := [], bytes_read := 0, post := o }
    | some st =>
        let ri := st.header.read_index
        let copy_size := min max_size SLOT_SIZE
        let copied := (st.slots.getD ri []).take copy_size
        { ok := true, out := copied, bytes_read := copy_size, post := o }

/-- MemoryMappedCircularBuffer::get_write_slot_ptr, as the byte offset of the
returned pointer from `buffer_data` (`none` models `nullptr`). -/
def get_write_slot_ptr (o : MemoryMappedCircularBuffer) : Option Nat :=
  if !o.is_init then none
  else
    match o.mapped with
    | some st => some (st.header.write_index * SLOT_SIZE)
    | none => none

/-- MemoryMappedCircularBuffer::get_read_slot_ptr, as the byte offset of the
returned pointer from `buffer_data` (`none` models `nullptr`). -/
def get_read_slot_ptr (o : MemoryMappedCircularBuffer) : Option Nat :=
  if !o.is_init || !has_data o then none
  else
    match o.mapped with
    | some st => some (st.header.read_index * SLOT_SIZE)
    | none => none

/-- MemoryMappedCircularBuffer::advance_write_pointer. -/
def advance_write_pointer (o : MemoryMappedCircularBuffer) : MemoryMappedCircularBuffer :=
  if !o.is_init then o
  else
    match o.mapped with
    | none => o
    | some st =>
        { o with mapped := some ({ st with header :=
          { st.header with
              write_index := (st.header.write_index + 1) % BUFFER_STAGES,
              total_writes := (st.header.total_writes + 1) % U32 } }) }

/-- MemoryMappedCircularBuffer::advance_read_pointer. -/
def advance_read_pointer (o : MemoryMappedCircularBuffer) : MemoryMappedCircularBuffer :=
  if !o.is_init || !has_data o then o
  else
    match o.mapped with
    | none => o
    | some st =>
        { o with mapped := some ({ st with header :=
          { st.header with
              read_index := (st.header.read_index + 1) % BUFFER_STAGES,
              total_reads := (st.header.total_reads + 1) % U32 } }) }

/-- MemoryMappedCircularBuffer::get_stats, as the snapshot the four
out-pointers receive (`none` when not yet opened and nothing is written). -/
def get_stats (o : MemoryMappedCircularBuffer) : Option (Nat × Nat × Nat × Nat) :=
  if !o.is_init then none
  else
    match o.mapped with
    | some st =>
        some (st.header.write_index, st.header.read_index,
          st.header.total_writes, st.header.total_reads)
    | none => none

/-- MemoryMappedCircularBuffer::cleanup: releases mapping and descriptor and
clears all derived state. -/
def cleanup (_o : MemoryMappedCircularBuffer) : MemoryMappedCircularBuffer :=
  { is_init := false, mapped := none }

/-- Range check on the ring indices of the mapped header (vacuously true when
nothing is mapped): `write_index < BUFFER_STAGES` and
`read_index < BUFFER_STAGES`. -/
def index_in_range (o : MemoryMappedCircularBuffer) : Bool :=
  match o.mapped with
  | none => true
  | some st =>
      decide (st.header.write_index < BUFFER_STAGES) &&
        decide (st.header.read_index < BUFFER_STAGES)

/-- The canonical empty mapped state: fresh header, every slot zeroed. -/
def emptyState : BufferState :=
  { header := initHeader
    slots := List.replicate BUFFER_STAGES (List.replicate SLOT_SIZE 0) }

/-- An open handle over the canonical empty state. -/
def emptyOpen : MemoryMappedCircularBuffer :=
  { is_init := true, mapped := some emptyState }

/-- A mapped state holding one unread two-byte record in slot 0. -/
def sampleState : BufferState :=
  { header := { write_index := 1, read_index := 0, total_writes := 1,
                total_reads := 0, magic_number := MAGIC_NUMBER,
                padding := List.replicate 44 0 }
    slots := (List.replicate BUFFER_STAGES (List.replicate SLOT_SIZE 0)).set 0
      (memcpyPrefix (List.replicate SLOT_SIZE 0) [5, 6]) }

/-- An open handle over `sampleState`. -/
def sampleOpen : MemoryMappedCircularBuffer :=
  { is_init := true, mapped := some sampleState }

/-- A 65-byte pre-existing file: an all-zero header region followed by one
nonzero slot byte. -/
def f65 : List Nat := List.replicate 64 0 ++ [7]

/-- A pre-existing file whose header carries indices and counters
(3, 1, 5, 2), a zeroed (invalid) magic field, and one nonzero slot byte: a
tampered buffer file. -/
def fBadMagic : List Nat :=
  encodeU32 3 ++ encodeU32 1 ++ encodeU32 5 ++ encodeU32 2 ++ encodeU32 0 ++
    List.replicate 44 0 ++ [7]

/-- A 64-byte pre-existing file with a valid magic but `write_index = 10`,
one past the last slot. -/
def fIndexTen : List Nat :=
  encodeU32 10 ++ encodeU32 0 ++ encodeU32 0 ++ encodeU32 0 ++
    encodeU32 MAGIC_NUMBER ++ List.replicate 44 0

/-- Sequencing harness: `writeSeq o p n` performs the `n` calls
`write_slot o (p 0)`, ..., `write_slot _ (p (n-1))` in order. -/
def writeSeq (o : MemoryMappedCircularBuffer) (p : Nat → List Nat) :
    Nat → MemoryMappedCircularBuffer
  | 0 => o
  | n + 1 => (write_slot (writeSeq o p n) (some (p n))).2

/-- Nine single-byte writes `[1]`, `[2]`, ..., `[9]` against an open empty
buffer. -/
def stateAfter9 : MemoryMappedCircularBuffer :=
  writeSeq emptyOpen (fun k => [k + 1]) 9

/-- The tenth write, payload `[10]`, on top of `stateAfter9`. -/
def stateAfter10 : MemoryMappedCircularBuffer :=
  (write_slot stateAfter9 (some [10])).2

/-- An empty buffer after one write, holding exactly one unread record
`[1, 2, 3]`. -/
def afterOneWrite : MemoryMappedCircularBuffer :=
  (write_slot emptyOpen (some [1, 2, 3])).2

theorem peek_slot_post_eq (o : MemoryMappedCircularBuffer) (b : Bool) (m : Nat) :
    (peek_slot o b m).post = o := by
  unfold peek_slot
  split
  · rfl
  split
  · rfl
  split
  · rfl
  · rfl

/-- C5: for every open buffer with data available, any number of repeated
`peek_slot` calls without an intervening `read_slot` copy identical bytes and
leave the entire buffer state (header and slots) unchanged. -/
theorem peek_slot_idempotent (o : MemoryMappedCircularBuffer) (max_size n : Nat)
    (_h : has_data o = true) :
    (fun s => (peek_slot s false max_size).post)^[n] o = o ∧
    (peek_slot ((fun s => (peek_slot s false max_size).post)^[n] o) false max_size).out =
      (peek_slot o false max_size).out := by
  have hiter : (fun s => (peek_slot s false max_size).post)^[n] o = o :=
    Function.iterate_fixed (peek_slot_post_eq o false max_size) n
  exact ⟨hiter, by rw [hiter]⟩

/-- Witness for C5 at a concrete buffer holding one unread record, three
repeated peeks. -/
theorem peek_slot_idempotent_witness :
    has_data sampleOpen = true ∧
    ((fun s => (peek_slot s false 16).post)^[3] sampleOpen = sampleOpen ∧
      (peek_slot ((fun s => (peek_slot s false 16).post)^[3] sampleOpen) false 16).out =
        (peek_slot sampleOpen false 16).out) :=
  ⟨by decide, peek_slot_idempotent sampleOpen 16 3 (by decide)⟩

/-- C7: every mutating call on a never-opened or closed instance fails or is a
no-op with no state change, and opening an already-open instance fails and
leaves the prior state (and the file) untouched. -/
theorem closed_ops_noop (o p : MemoryMappedCircularBuffer)
    (data : Option (List Nat)) (b : Bool) (max_size : Nat) (file : Option (List Nat))
    (hc : o.is_init = false) (hp : p.is_init = true) :
    write_slot o data = (false, o) ∧
    read_slot o b max_size = { ok := false, out := [], bytes_read := 0, post := o } ∧
    advance_write_pointer o = o ∧
    advance_read_pointer o = o ∧
    reset o = o ∧
    open_buffer p file = (false, p, file) := by
  refine ⟨?_, ?_, ?_, ?_, ?_, ?_⟩
  · rcases data with _ | d <;> rcases hm : o.mapped with _ | st <;>
      simp [write_slot, hm, hc]
  · simp [read_slot, hc]
  · simp [advance_write_pointer, hc]
  · simp [advance_read_pointer, hc]
  · simp [reset, hc]
  · simp [open_buffer, hp]

/-- Witness for C7: a freshly constructed (never-opened) object and an open
object. -/
theorem closed_ops_noop_witness :
    mkBuffer.is_init = false ∧ sampleOpen.is_init = true ∧
    (write_slot mkBuffer (some [1]) = (false, mkBuffer) ∧
      read_slot mkBuffer false 8 = { ok := false, out := [], bytes_read := 0, post := mkBuffer } ∧
      advance_write_pointer mkBuffer = mkBuffer ∧
      advance_read_pointer mkBuffer = mkBuffer ∧
      reset mkBuffer = mkBuffer ∧
      open_buffer sampleOpen (some f65) = (false, sampleOpen, some f65)) :=
  ⟨rfl, rfl, closed_ops_noop mkBuffer sampleOpen (some [1]) false 8 (some f65) rfl rfl⟩

/-- C8: an oversized payload (more than `SLOT_SIZE` bytes) is rejected by
`write_slot` before any mutation: the call returns failure and the object,
header and slots included, is exactly as before. -/
theorem write_slot_oversized_rejected (o : MemoryMappedCircularBuffer) (d : List Nat)
    (hi : o.is_init = true) (hd : SLOT_SIZE < d.length) :
    write_slot o (some d) = (false, o) := by
  rcases hm : o.mapped with _ | st <;> simp [write_slot, hm, hi, hd]

/-- Witness for C8: a 1025-byte payload against an open buffer. -/
theorem write_slot_oversized_rejected_witness :
    sampleOpen.is_init = true ∧ SLOT_SIZE < (List.replicate 1025 0).length ∧
    write_slot sampleOpen (some (List.replicate 1025 0)) = (false, sampleOpen) :=
  ⟨rfl, by simp only [SLOT_SIZE, List.length_replicate]; omega,
    write_slot_oversized_rejected sampleOpen (List.replicate 1025 0) rfl
      (by simp only [SLOT_SIZE, List.length_replicate]; omega)⟩

/-- C10: `get_read_slot_ptr` returns null exactly when the instance is not
open or the ring is empty (`read_index = write_index`), while
`get_write_slot_ptr` returns null only when the instance is not open — in
particular it returns a pointer even when the ring is full. -/
theorem slot_ptr_null_conditions (o : MemoryMappedCircularBuffer) (st : BufferState)
    (hm : o.mapped = some st) :
    (get_read_slot_ptr o = none ↔
      (o.is_init = false ∨ st.header.read_index = st.header.write_index)) ∧
    (get_write_slot_ptr o = none ↔ o.is_init = false) ∧
    (o.is_init = true → is_full o = true → get_write_slot_ptr o ≠ none) := by
  rcases o with ⟨i, m⟩
  have hm' : m = some st := hm
  subst hm'
  cases i <;>
    simp [get_read_slot_ptr, get_write_slot_ptr, has_data, is_full, bne]

/-- C9: a successful `read_slot` changes only `read_index` (incremented
modulo `BUFFER_STAGES`) and `total_reads` (incremented by one, as a 32-bit
counter) in the header; `write_index`, `total_writes`, `magic_number`, the
padding and the contents of every slot are untouched. -/
theorem read_slot_frame (o : MemoryMappedCircularBuffer) (st : BufferState)
    (b : Bool) (max_size : Nat)
    (hm : o.mapped = some st) (hok : (read_slot o b max_size).ok = true) :
    read_slot o b max_size =
      { ok := true
        out := (st.slots.getD st.header.read_index []).take (min max_size SLOT_SIZE)
        bytes_read := min max_size SLOT_SIZE
        post := { o with mapped := some ({ st with header :=
          { st.header with
              read_index := (st.header.read_index + 1) % BUFFER_STAGES,
              total_reads := (st.header.total_reads + 1) % U32 } }) } } := by
  rcases o with ⟨i, m⟩
  have hm' : m = some st := hm
  subst hm'
  cases i with
  | false => simp [read_slot] at hok
  | true =>
      cases b with
      | true => simp [read_slot] at hok
      | false =>
          cases hd : has_data ⟨true, some st⟩ with
          | false => simp [read_slot, hd] at hok
          | true => simp [read_slot, hd]

/-- Witness for C9 at a concrete open buffer with one unread record. -/
theorem read_slot_frame_witness :
    sampleOpen.mapped = some sampleState ∧
    (read_slot sampleOpen false 4).ok = true ∧
    read_slot sampleOpen false 4 =
      { ok := true
        out := (sampleState.slots.getD sampleState.header.read_index []).take
          (min 4 SLOT_SIZE)
        bytes_read := min 4 SLOT_SIZE
        post := { sampleOpen with mapped := some ({ sampleState with header :=
          { sampleState.header with
              read_index := (sampleState.header.read_index + 1) % BUFFER_STAGES,
              total_reads := (sampleState.header.total_reads + 1) % U32 } }) } } :=
  ⟨rfl, by decide, read_slot_frame sampleOpen sampleState false 4 rfl (by decide)⟩

/-- C1 (divergence witness): opening the tampered file `fBadMagic`, whose
magic field is zeroed, returns success, but the buffer is NOT returned to
the fresh-empty state: the stale indices (3, 1), counters (5, 2) and the
zero magic survive, as does the first slot byte 7.  The `reset` call in the
open path runs while `is_initialized` is still false, so its guard turns it
into a no-op. -/
theorem open_invalid_magic_keeps_state :
    (open_buffer mkBuffer (some fBadMagic)).1 = true ∧
    ((open_buffer mkBuffer (some fBadMagic)).2.1.mapped.map fun st =>
      (st.header.write_index, st.header.read_index, st.header.total_writes,
        st.header.total_reads, st.header.magic_number)) = some (3, 1, 5, 2, 0) ∧
    ((open_buffer mkBuffer (some fBadMagic)).2.1.mapped.map fun st =>
      (st.slots.getD 0 []).getD 0 0) = some 7 := by
  refine ⟨rfl, ?_, ?_⟩ <;> decide

/-- C2 (counterexample): `create_buffer_file` against the existing file
`f65`, whose first slot byte is 7, does NOT discard the prior slot contents:
byte 64 of the produced file (the first slot byte) is still 7, where a
fresh-created file carries 0 there. -/
theorem create_existing_keeps_slot_bytes :
    ((create_buffer_file (some f65)).getD []).getD 64 0 = 7 ∧
    ¬ ((create_buffer_file (some f65)).getD []).getD 64 0 = 0 := by
  refine ⟨?_, ?_⟩ <;> decide

/-- C2 (amended): `create_buffer_file` against an existing file rewrites the
64-byte header to the canonical empty form (all indices and counters zero,
magic stamped) and sizes the file to exactly `TOTAL_BUFFER_SIZE` bytes, but
the slot bytes surviving the resize are retained, not discarded. -/
theorem create_buffer_file_existing (f r : List Nat)
    (h : create_buffer_file (some f) = some r) :
    r.length = TOTAL_BUFFER_SIZE ∧
    r.take HEADER_SIZE = encodeHeader initHeader ∧
    r.drop HEADER_SIZE = (ftruncateTotal f).drop HEADER_SIZE := by
  have hr : r = encodeHeader initHeader ++ (ftruncateTotal f).drop HEADER_SIZE := by
    unfold create_buffer_file at h
    simpa using h.symm
  subst hr
  have hlenH : (encodeHeader initHeader).length = HEADER_SIZE := by rfl
  have hlenT : (ftruncateTotal f).length = TOTAL_BUFFER_SIZE := by
    simp only [ftruncateTotal, List.length_append, List.length_take,
      List.length_replicate, TOTAL_BUFFER_SIZE, BUFFER_STAGES, SLOT_SIZE, HEADER_SIZE]
    omega
  refine ⟨?_, List.take_left' hlenH, List.drop_left' hlenH⟩
  simp only [List.length_append, List.length_drop, hlenH, hlenT,
    TOTAL_BUFFER_SIZE, BUFFER_STAGES, SLOT_SIZE, HEADER_SIZE]

/-- Witness for C2 at the concrete existing file `f65`. -/
theorem create_buffer_file_existing_witness :
    create_buffer_file (some f65) = some ((create_buffer_file (some f65)).getD []) ∧
    (((create_buffer_file (some f65)).getD []).length = TOTAL_BUFFER_SIZE ∧
      ((create_buffer_file (some f65)).getD []).take HEADER_SIZE = encodeHeader initHeader ∧
      ((create_buffer_file (some f65)).getD []).drop HEADER_SIZE =
        (ftruncateTotal f65).drop HEADER_SIZE) :=
  ⟨rfl, create_buffer_file_existing f65 ((create_buffer_file (some f65)).getD []) rfl⟩

/-- C6 (counterexample): opening the pre-existing file `fIndexTen`, whose
magic is valid but whose stored `write_index` is 10, succeeds and inherits
the out-of-range index as-is, so the invariant does not hold after this
successful open. -/
theorem open_inherits_out_of_range_index :
    (open_buffer mkBuffer (some fIndexTen)).1 = true ∧
    ((open_buffer mkBuffer (some fIndexTen)).2.1.mapped.map fun st =>
      st.header.write_index) = some 10 ∧
    ¬ (10 : Nat) < BUFFER_STAGES := by
  refine ⟨rfl, by decide, by decide⟩

theorem index_in_range_some (st : BufferState) (i : Bool) :
    index_in_range ⟨i, some st⟩ = true ↔
      (st.header.write_index < BUFFER_STAGES ∧ st.header.read_index < BUFFER_STAGES) := by
  simp [index_in_range]

theorem stages_pos : 0 < BUFFER_STAGES := by decide

theorem create_buffer_file_eq (e : Option (List Nat)) :
    create_buffer_file e =
      some (encodeHeader initHeader ++ (ftruncateTotal (e.getD [])).drop HEADER_SIZE) := rfl

theorem initHeader_enc_length : (encodeHeader initHeader).length = HEADER_SIZE := by
  simp [encodeHeader, encodeU32, initHeader, HEADER_SIZE]

theorem ftruncateTotal_length (f : List Nat) :
    (ftruncateTotal f).length = TOTAL_BUFFER_SIZE := by
  simp only [ftruncateTotal, List.length_append, List.length_take,
    List.length_replicate, TOTAL_BUFFER_SIZE, BUFFER_STAGES, SLOT_SIZE, HEADER_SIZE]
  omega

theorem create_result_length (e : Option (List Nat)) :
    ((create_buffer_file e).getD []).length = TOTAL_BUFFER_SIZE := by
  rw [create_buffer_file_eq]
  simp only [Option.getD_some, List.length_append, List.length_drop,
    ftruncateTotal_length, initHeader_enc_length]
  simp [TOTAL_BUFFER_SIZE, BUFFER_STAGES, SLOT_SIZE, HEADER_SIZE]

theorem extendToTotal_of_total (f : List Nat) (h : f.length = TOTAL_BUFFER_SIZE) :
    extendToTotal f = f := by
  simp [extendToTotal, h]

theorem open_buffer_closed_file (m : Option BufferState) (f : List Nat) :
    open_buffer ⟨false, m⟩ (some f) =
      (true, ⟨true, some (decodeState (extendToTotal f))⟩, some (extendToTotal f)) := by
  simp only [open_buffer]
  split
  · simp_all
  · split <;> rfl

theorem open_buffer_closed_none_eq (m : Option BufferState) :
    open_buffer ⟨false, m⟩ none =
      open_buffer ⟨false, m⟩ (some ((create_buffer_file none).getD [])) := rfl

theorem fresh_decode_indices :
    (decodeState (extendToTotal ((create_buffer_file none).getD []))).header.write_index = 0 ∧
    (decodeState (extendToTotal ((create_buffer_file none).getD []))).header.read_index = 0 := by
  rw [extendToTotal_of_total _ (create_result_length none)]
  exact ⟨rfl, rfl⟩

theorem index_in_range_write_slot (o : MemoryMappedCircularBuffer)
    (data : Option (List Nat)) (h : index_in_range o = true) :
    index_in_range (write_slot o data).2 = true := by
  rcases o with ⟨i, m⟩
  rcases data with _ | d
  · simpa [write_slot] using h
  rcases m with _ | st
  · simpa [write_slot] using h
  rw [index_in_range_some] at h
  cases i with
  | false => simpa [write_slot, index_in_range_some] using h
  | true =>
      by_cases hd : d.length > SLOT_SIZE
      · simpa [write_slot, hd, index_in_range_some] using h
      · simp only [write_slot, hd, Bool.not_true, Bool.false_eq_true, if_false]
        rw [index_in_range_some]
        exact ⟨Nat.mod_lt _ stages_pos, h.2⟩

theorem index_in_range_read_slot (o : MemoryMappedCircularBuffer) (b : Bool)
    (max_size : Nat) (h : index_in_range o = true) :
    index_in_range (read_slot o b max_size).post = true := by
  rcases o with ⟨i, m⟩
  rcases m with _ | st
  · cases i <;> cases b <;> simpa [read_slot, has_data] using h
  rw [index_in_range_some] at h
  cases i with
  | false => simpa [read_slot, index_in_range_some] using h
  | true =>
      cases b with
      | true => simpa [read_slot, index_in_range_some] using h
      | false =>
          by_cases hd : has_data ⟨true, some st⟩ = true
          · simp only [read_slot, hd, Bool.not_true, Bool.or_false,
              Bool.false_eq_true, if_false]
            rw [index_in_range_some]
            exact ⟨h.1, Nat.mod_lt _ stages_pos⟩
          · simp only [Bool.not_eq_true] at hd
            simpa [read_slot, hd, index_in_range_some] using h

theorem index_in_range_advance_write (o : MemoryMappedCircularBuffer)
    (h : index_in_range o = true) :
    index_in_range (advance_write_pointer o) = true := by
  rcases o with ⟨i, m⟩
  rcases m with _ | st
  · cases i <;> simpa [advance_write_pointer] using h
  rw [index_in_range_some] at h
  cases i with
  | false => simpa [advance_write_pointer, index_in_range_some] using h
  | true =>
      simp only [advance_write_pointer, Bool.not_true, Bool.false_eq_true, if_false]
      rw [index_in_range_some]
      exact ⟨Nat.mod_lt _ stages_pos, h.2⟩

theorem index_in_range_advance_read (o : MemoryMappedCircularBuffer)
    (h : index_in_range o = true) :
    index_in_range (advance_read_pointer o) = true := by
  rcases o with ⟨i, m⟩
  rcases m with _ | st
  · cases i <;> simpa [advance_read_pointer, has_data] using h
  rw [index_in_range_some] at h
  cases i with
  | false => simpa [advance_read_pointer, index_in_range_some] using h
  | true =>
      by_cases hd : has_data ⟨true, some st⟩ = true
      · simp only [advance_read_pointer, hd, Bool.not_true, Bool.or_false,
          Bool.false_eq_true, if_false]
        rw [index_in_range_some]
        exact ⟨h.1, Nat.mod_lt _ stages_pos⟩
      · simp only [Bool.not_eq_true] at hd
        simpa [advance_read_pointer, hd, index_in_range_some] using h

theorem index_in_range_reset (o : MemoryMappedCircularBuffer)
    (h : index_in_range o = true) :
    index_in_range (reset o) = true := by
  rcases o with ⟨i, m⟩
  rcases m with _ | st
  · cases i <;> simpa [reset] using h
  cases i with
  | false => simpa [reset] using h
  | true =>
      simp only [reset, Bool.not_true, Bool.false_eq_true, if_false]
      rw [index_in_range_some]
      exact ⟨stages_pos, stages_pos⟩

/-- C6 (amended): the index invariant `write_index, read_index ∈ [0, N)`
holds after a successful open whenever the opened file's stored indices are
themselves in range (in particular for a freshly provisioned file), and is
preserved by every operation; a pre-existing file with valid magic is
inherited as-is, so the open path itself checks nothing about the indices. -/
theorem index_invariant_preserved (o : MemoryMappedCircularBuffer)
    (data : Option (List Nat)) (b : Bool) (max_size : Nat) (f : List Nat)
    (h : index_in_range o = true)
    (hw : (decodeState (extendToTotal f)).header.write_index < BUFFER_STAGES)
    (hr : (decodeState (extendToTotal f)).header.read_index < BUFFER_STAGES) :
    index_in_range (open_buffer o none).2.1 = true ∧
    index_in_range (open_buffer o (some f)).2.1 = true ∧
    index_in_range (write_slot o data).2 = true ∧
    index_in_range (read_slot o b max_size).post = true ∧
    index_in_range (peek_slot o b max_size).post = true ∧
    index_in_range (advance_write_pointer o) = true ∧
    index_in_range (advance_read_pointer o) = true ∧
    index_in_range (reset o) = true ∧
    index_in_range (cleanup o) = true := by
  refine ⟨?_, ?_, index_in_range_write_slot o data h,
    index_in_range_read_slot o b max_size h, ?_,
    index_in_range_advance_write o h, index_in_range_advance_read o h,
    index_in_range_reset o h, by simp [cleanup, index_in_range]⟩
  · rcases o with ⟨i, m⟩
    cases i with
    | true => simpa [open_buffer] using h
    | false =>
        rw [open_buffer_closed_none_eq, open_buffer_closed_file, index_in_range_some]
        constructor
        · rw [fresh_decode_indices.1]; exact stages_pos
        · rw [fresh_decode_indices.2]; exact stages_pos
  · rcases o with ⟨i, m⟩
    cases i with
    | true => simpa [open_buffer] using h
    | false =>
        rw [open_buffer_closed_file, index_in_range_some]
        exact ⟨hw, hr⟩
  · rw [peek_slot_post_eq]
    exact h

/-- Witness for C6 (amended) at a concrete open buffer and the tampered file
`fBadMagic`, whose stored indices 3 and 1 are in range. -/
theorem index_invariant_preserved_witness :
    index_in_range sampleOpen = true ∧
    (decodeState (extendToTotal fBadMagic)).header.write_index < BUFFER_STAGES ∧
    (decodeState (extendToTotal fBadMagic)).header.read_index < BUFFER_STAGES ∧
    (index_in_range (open_buffer sampleOpen none).2.1 = true ∧
      index_in_range (open_buffer sampleOpen (some fBadMagic)).2.1 = true ∧
      index_in_range (write_slot sampleOpen (some [1])).2 = true ∧
      index_in_range (read_slot sampleOpen false 8).post = true ∧
      index_in_range (peek_slot sampleOpen false 8).post = true ∧
      index_in_range (advance_write_pointer sampleOpen) = true ∧
      index_in_range (advance_read_pointer sampleOpen) = true ∧
      index_in_range (reset sampleOpen) = true ∧
      index_in_range (cleanup sampleOpen) = true) :=
  ⟨by decide, by decide, by decide,
    index_invariant_preserved sampleOpen (some [1]) false 8 fBadMagic
      (by decide) (by decide) (by decide)⟩

theorem read_slot_open_eq (st : BufferState) (max_size : Nat)
    (hd : st.header.read_index ≠ st.header.write_index) :
    read_slot ⟨true, some st⟩ false max_size =
      { ok := true
        out := (st.slots.getD st.header.read_index []).take (min max_size SLOT_SIZE)
        bytes_read := min max_size SLOT_SIZE
        post := ⟨true, some { st with header := { st.header with
            read_index := (st.header.read_index + 1) % BUFFER_STAGES,
            total_reads := (st.header.total_reads + 1) % U32 } }⟩ } := by
  have hb : has_data ⟨true, some st⟩ = true := by
    simp [has_data, bne_iff_ne, hd]
  simp [read_slot, hb]

theorem write_slot_open_eq (st : BufferState) (d : List Nat)
    (hd : d.length ≤ SLOT_SIZE) :
    write_slot ⟨true, some st⟩ (some d) =
      (true, ⟨true, some (BufferState.mk
        { st.header with
            write_index := (st.header.write_index + 1) % BUFFER_STAGES,
            total_writes := (st.header.total_writes + 1) % U32 }
        (st.slots.set st.header.write_index
          (memcpyPrefix (List.replicate SLOT_SIZE 0) d)))⟩) := by
  have hnd : ¬ d.length > SLOT_SIZE := Nat.not_lt.mpr hd
  simp [write_slot, hnd]

theorem writeSeq_spec (st : BufferState) (p : Nat → List Nat)
    (hp : ∀ k, (p k).length ≤ SLOT_SIZE)
    (hw0 : st.header.write_index = 0)
    (hl : st.slots.length = BUFFER_STAGES) :
    ∀ n, n ≤ BUFFER_STAGES →
    ∃ s : BufferState,
      writeSeq ⟨true, some st⟩ p n = ⟨true, some s⟩ ∧
      s.header.write_index = n % BUFFER_STAGES ∧
      s.header.read_index = st.header.read_index ∧
      s.slots.length = BUFFER_STAGES ∧
      (∀ k, k < n → s.slots.getD k [] =
        memcpyPrefix (List.replicate SLOT_SIZE 0) (p k)) ∧
      (∀ k, n ≤ k → s.slots.getD k [] = st.slots.getD k []) := by
  intro n
  induction n with
  | zero =>
      intro _
      refine ⟨st, rfl, ?_, rfl, hl, fun k hk => absurd hk (Nat.not_lt_zero k),
        fun k _ => rfl⟩
      simpa using hw0
  | succ n ih =>
      intro hn1
      obtain ⟨s, hs, hwi, hri, hsl, hlt, hge⟩ := ih (Nat.le_of_succ_le hn1)
      have hnlt : n < BUFFER_STAGES := hn1
      have hwin : s.header.write_index = n := by
        rw [hwi, Nat.mod_eq_of_lt hnlt]
      have hstep : writeSeq ⟨true, some st⟩ p (n + 1) =
          (write_slot (writeSeq ⟨true, some st⟩ p n) (some (p n))).2 := rfl
      rw [hstep, hs, write_slot_open_eq _ _ (hp n)]
      refine ⟨_, rfl, ?_, hri, ?_, ?_, ?_⟩
      · show (s.header.write_index + 1) % BUFFER_STAGES = (n + 1) % BUFFER_STAGES
        rw [hwin]
      · show (s.slots.set s.header.write_index _).length = BUFFER_STAGES
        rw [List.length_set, hsl]
      · intro k hk
        show (s.slots.set s.header.write_index _).getD k [] = _
        rcases Nat.lt_or_ge k n with hkn | hkn
        · have hne : s.header.write_index ≠ k := by omega
          rw [List.getD_eq_getElem?_getD, List.getElem?_set_ne hne,
            ← List.getD_eq_getElem?_getD]
          exact hlt k hkn
        · have hkeq : k = n := by omega
          subst hkeq
          rw [← hwin] at hnlt ⊢
          rw [List.getD_eq_getElem?_getD,
            List.getElem?_set_eq_of_lt _ (by rw [hsl]; exact hwin ▸ hnlt)]
          rfl
      · intro k hk
        have hne : s.header.write_index ≠ k := by omega
        show (s.slots.set s.header.write_index _).getD k [] = _
        rw [List.getD_eq_getElem?_getD, List.getElem?_set_ne hne,
          ← List.getD_eq_getElem?_getD]
        exact hge k (by omega)

/-- C3 (counterexample): from an open empty buffer, after nine writes
`[1]`, ..., `[9]`, both `is_full` and `has_data` hold and the tenth write
`[10]` succeeds with `write_index` wrapping from 9 to 0 — but the tenth
payload lands in slot 9, and slot 0 still holds the first payload `[1]`,
not the tenth. -/
theorem tenth_write_lands_in_slot_nine :
    is_full stateAfter9 = true ∧ has_data stateAfter9 = true ∧
    (write_slot stateAfter9 (some [10])).1 = true ∧
    (stateAfter9.mapped.map fun s => s.header.write_index) = some 9 ∧
    (stateAfter10.mapped.map fun s => s.header.write_index) = some 0 ∧
    (stateAfter10.mapped.map fun s => (s.slots.getD 9 []).getD 0 0) = some 10 ∧
    (stateAfter10.mapped.map fun s => (s.slots.getD 0 []).getD 0 0) = some 1 ∧
    ¬ (stateAfter10.mapped.map fun s => (s.slots.getD 0 []).getD 0 0) = some 10 := by
  refine ⟨by decide, by decide, by decide, by decide, by decide, by decide,
    by decide, by decide⟩

/-- C3 (amended): starting from an open empty buffer (both indices 0), after
nine writes with zero reads `is_full` and `has_data` are true; a tenth
`write_slot` still returns success and `write_index` wraps from 9 to 0, the
tenth payload being stored in slot 9 while slot 0 keeps the first write's
payload (it is the eleventh write that would overwrite slot 0). -/
theorem ring_capacity_drop_oldest (o : MemoryMappedCircularBuffer)
    (st : BufferState) (p : Nat → List Nat)
    (hm : o.mapped = some st) (hi : o.is_init = true)
    (hw0 : st.header.write_index = 0) (hr0 : st.header.read_index = 0)
    (hl : st.slots.length = BUFFER_STAGES)
    (hp : ∀ k, (p k).length ≤ SLOT_SIZE) :
    is_full (writeSeq o p 9) = true ∧
    has_data (writeSeq o p 9) = true ∧
    (write_slot (writeSeq o p 9) (some (p 9))).1 = true ∧
    ((writeSeq o p 9).mapped.map fun s => s.header.write_index) = some 9 ∧
    ((writeSeq o p 10).mapped.map fun s => s.header.write_index) = some 0 ∧
    ((writeSeq o p 10).mapped.map fun s => s.slots.getD 9 []) =
      some (memcpyPrefix (List.replicate SLOT_SIZE 0) (p 9)) ∧
    ((writeSeq o p 10).mapped.map fun s => s.slots.getD 0 []) =
      some (memcpyPrefix (List.replicate SLOT_SIZE 0) (p 0)) := by
  rcases o with ⟨i, m⟩
  have hm' : m = some st := hm
  subst hm'
  have hi' : i = true := hi
  subst hi'
  obtain ⟨s9, hs9, hwi9, hri9, hsl9, hlt9, hge9⟩ :=
    writeSeq_spec st p hp hw0 hl 9 (by decide)
  obtain ⟨s10, hs10, hwi10, hri10, hsl10, hlt10, hge10⟩ :=
    writeSeq_spec st p hp hw0 hl 10 (by decide)
  have hwi9' : s9.header.write_index = 9 := by simpa using hwi9
  have hwi10' : s10.header.write_index = 0 := by simpa using hwi10
  have hri9' : s9.header.read_index = 0 := by rw [hri9, hr0]
  refine ⟨?_, ?_, ?_, ?_, ?_, ?_, ?_⟩
  · rw [hs9]
    simp [is_full, hwi9', hri9', BUFFER_STAGES]
  · rw [hs9]
    simp [has_data, hwi9', hri9']
  · rw [hs9, write_slot_open_eq _ _ (hp 9)]
  · rw [hs9]
    simp [hwi9']
  · rw [hs10]
    simp [hwi10']
  · rw [hs10]
    show some (s10.slots.getD 9 []) = _
    rw [hlt10 9 (by omega)]
  · rw [hs10]
    show some (s10.slots.getD 0 []) = _
    rw [hlt10 0 (by omega)]

/-- Witness for C3 (amended) at the canonical empty open buffer with
payloads `[1]`, ..., `[10]`. -/
theorem ring_capacity_drop_oldest_witness :
    emptyOpen.mapped = some emptyState ∧ emptyOpen.is_init = true ∧
    emptyState.header.write_index = 0 ∧ emptyState.header.read_index = 0 ∧
    emptyState.slots.length = BUFFER_STAGES ∧
    (∀ k, ((fun j => [j + 1]) k : List Nat).length ≤ SLOT_SIZE) ∧
    (is_full (writeSeq emptyOpen (fun j => [j + 1]) 9) = true ∧
      has_data (writeSeq emptyOpen (fun j => [j + 1]) 9) = true ∧
      (write_slot (writeSeq emptyOpen (fun j => [j + 1]) 9) (some [10])).1 = true ∧
      ((writeSeq emptyOpen (fun j => [j + 1]) 9).mapped.map fun s =>
        s.header.write_index) = some 9 ∧
      ((writeSeq emptyOpen (fun j => [j + 1]) 10).mapped.map fun s =>
        s.header.write_index) = some 0 ∧
      ((writeSeq emptyOpen (fun j => [j + 1]) 10).mapped.map fun s =>
        s.slots.getD 9 []) =
        some (memcpyPrefix (List.replicate SLOT_SIZE 0) [10]) ∧
      ((writeSeq emptyOpen (fun j => [j + 1]) 10).mapped.map fun s =>
        s.slots.getD 0 []) =
        some (memcpyPrefix (List.replicate SLOT_SIZE 0) [1])) :=
  ⟨rfl, rfl, rfl, rfl, by decide, fun k => by show 1 ≤ SLOT_SIZE; decide,
    ring_capacity_drop_oldest emptyOpen emptyState (fun j => [j + 1]) rfl rfl rfl rfl
      (by decide) (fun k => by show 1 ≤ SLOT_SIZE; decide)⟩

/-- C4 (counterexample): on an open buffer that already holds the unread
record `[1, 2, 3]`, writing `[9, 9]` and then immediately reading yields the
older record `[1, 2, 3]` zero-padded, not the just-written payload, so the
round-trip property fails on a non-empty buffer. -/
theorem roundtrip_nonempty_cex :
    (read_slot (write_slot afterOneWrite (some [9, 9])).2 false 4).out = [1, 2, 3, 0] ∧
    ¬ (read_slot (write_slot afterOneWrite (some [9, 9])).2 false 4).out =
      ([9, 9] ++ List.replicate (SLOT_SIZE - 2) 0).take (min 4 SLOT_SIZE) := by
  refine ⟨by decide, by decide⟩

/-- C4 (amended): on an open buffer with no unread data
(`read_index = write_index`), `write_slot p` with `len p ≤ SLOT_SIZE`
followed immediately by `read_slot` succeeds, copies
`min max_size SLOT_SIZE` bytes consisting of the bytes of `p` followed by
zero bytes (the slot is cleared before the copy), and reports that count. -/
theorem write_then_read_roundtrip_empty (o : MemoryMappedCircularBuffer)
    (st : BufferState) (p : List Nat) (max_size : Nat)
    (hm : o.mapped = some st) (hi : o.is_init = true)
    (he : st.header.read_index = st.header.write_index)
    (hwlt : st.header.write_index < BUFFER_STAGES)
    (hl : st.slots.length = BUFFER_STAGES)
    (hp : p.length ≤ SLOT_SIZE) :
    (write_slot o (some p)).1 = true ∧
    (read_slot (write_slot o (some p)).2 false max_size).ok = true ∧
    (read_slot (write_slot o (some p)).2 false max_size).bytes_read =
      min max_size SLOT_SIZE ∧
    (read_slot (write_slot o (some p)).2 false max_size).out =
      (p ++ List.replicate (SLOT_SIZE - p.length) 0).take (min max_size SLOT_SIZE) := by
  rcases o with ⟨i, m⟩
  have hm' : m = some st := hm
  subst hm'
  have hi' : i = true := hi
  subst hi'
  have hnp : ¬ p.length > SLOT_SIZE := Nat.not_lt.mpr hp
  have hwl : st.header.write_index < st.slots.length := hl ▸ hwlt
  have hne : st.header.read_index ≠
      (st.header.write_index + 1) % BUFFER_STAGES := by
    rw [he]
    simp only [BUFFER_STAGES] at hwlt ⊢
    omega
  simp only [write_slot, Bool.not_true, Bool.false_eq_true, if_false, hnp,
    if_neg, not_false_iff]
  rw [read_slot_open_eq]
  · refine ⟨trivial, rfl, rfl, ?_⟩
    simp only [he]
    simp [List.getD_eq_getElem?_getD, List.getElem?_set_eq_of_lt _ hwl,
      memcpyPrefix, List.drop_replicate]
  · exact hne

/-- Witness for C4 (amended) at the canonical empty open buffer with payload
`[1, 2, 3]` and `max_size = 8`. -/
theorem write_then_read_roundtrip_empty_witness :
    emptyOpen.mapped = some emptyState ∧ emptyOpen.is_init = true ∧
    emptyState.header.read_index = emptyState.header.write_index ∧
    emptyState.header.write_index < BUFFER_STAGES ∧
    emptyState.slots.length = BUFFER_STAGES ∧
    ([1, 2, 3] : List Nat).length ≤ SLOT_SIZE ∧
    ((write_slot emptyOpen (some [1, 2, 3])).1 = true ∧
      (read_slot (write_slot emptyOpen (some [1, 2, 3])).2 false 8).ok = true ∧
      (read_slot (write_slot emptyOpen (some [1, 2, 3])).2 false 8).bytes_read =
        min 8 SLOT_SIZE ∧
      (read_slot (write_slot emptyOpen (some [1, 2, 3])).2 false 8).out =
        ([1, 2, 3] ++ List.replicate (SLOT_SIZE - [1, 2, 3].length) 0).take
          (min 8 SLOT_SIZE)) :=
  ⟨rfl, rfl, rfl, by decide, by decide, by decide,
    write_then_read_roundtrip_empty emptyOpen emptyState [1, 2, 3] 8 rfl rfl rfl
      (by decide) (by decide) (by decide)⟩

/-- Witness for C10 at a concrete open buffer. -/
theorem slot_ptr_null_conditions_witness :
    sampleOpen.mapped = some sampleState ∧
    ((get_read_slot_ptr sampleOpen = none ↔
      (sampleOpen.is_init = false ∨
        sampleState.header.read_index = sampleState.header.write_index)) ∧
    (get_write_slot_ptr sampleOpen = none ↔ sampleOpen.is_init = false) ∧
    (sampleOpen.is_init = true → is_full sampleOpen = true →
      get_write_slot_ptr sampleOpen ≠ none)) :=
  ⟨rfl, slot_ptr_null_conditions sampleOpen sampleState rfl⟩

end Snake
